import Mathlib

/-!
Shallow embedding of the sheep-rentals backend (TypeScript/Express over
DynamoDB) for verification of its specification.

Modelling conventions, shared by all definitions below:

* ISO date strings (`createdAt`, `updatedAt`, `dueDate`, `paidDate`, ...)
  are compared in the source via `new Date(s).getTime()`; we model them as
  `Nat` millisecond timestamps.
* JavaScript numbers carried in a Payment's `amount` field are produced by
  `Number(paymentData.amount)` with no sign or range validation, so they
  are modelled as `Int` (signed, exact).
* Record ids are strings (uuids in the source); freshly generated uuids and
  the current time are passed to handlers as explicit arguments.
* The DynamoDB DocumentClient is modelled as in-memory lists held in a
  `Store`; `get` by key is `List.find?`, `scan` with a filter is
  `List.filter`, `update` maps over the table replacing the matching
  record, `delete` filters the key out, `put` appends.
* `createError(msg, code)` / `asyncHandler` surface as `Except` values
  carrying `(statusCode, message)`; a handler-level `try { ... } catch`
  that re-throws a fresh 500 is modelled explicitly where the claims
  depend on it (the account-deletion handler).
* Handlers return `(Except (Nat × String) Out) × Store`: the second
  component is the store after the handler ran, so that "stores nothing on
  failure" is directly statable.
* Truthiness checks such as `if (!paymentData.amount)` on optional request
  fields are modelled on `Option` values (`none` = absent / falsy).
-/

/-- Property.status in src/backend/src/types/index.ts. -/
inductive PropertyStatus
  | available
  | rented
  | maintenance
  | inactive
deriving DecidableEq, Repr

/-- Application.status in src/backend/src/types/index.ts. -/
inductive ApplicationStatus
  | pending
  | approved
  | rejected
  | withdrawn
deriving DecidableEq, Repr

/-- Payment.status in src/backend/src/types/index.ts. -/
inductive PaymentStatus
  | pending
  | paid
  | overdue
  | cancelled
deriving DecidableEq, Repr

/-- RentalAgreement.status in src/backend/src/types/index.ts. -/
inductive AgreementStatus
  | active
  | expired
  | terminated
deriving DecidableEq, Repr

/-- Caller role (`req.user!.userType`). -/
inductive Role
  | landlord
  | renter
deriving DecidableEq, Repr

/-- Property record (fields relevant to the claims; nested detail objects
are opaque to every claim and omitted). -/
structure Property where
  id : String
  landlordId : String
  title : String
  description : String
  status : PropertyStatus
  createdAt : Nat
  updatedAt : Nat
deriving DecidableEq, Repr

/-- Application record (nested personalInfo/employment/documents payloads
are opaque to every claim and kept as raw strings / omitted). -/
structure Application where
  id : String
  propertyId : String
  renterId : String
  landlordId : String
  status : ApplicationStatus
  personalInfo : String
  employment : String
  message : Option String
  createdAt : Nat
  updatedAt : Nat
  reviewedAt : Option Nat
  reviewedBy : Option String
  notes : Option String
deriving DecidableEq, Repr

/-- Payment record, as in src/backend/src/types/index.ts. -/
structure Payment where
  id : String
  rentalAgreementId : String
  propertyId : String
  renterId : String
  landlordId : String
  amount : Int
  type : String
  status : PaymentStatus
  dueDate : Nat
  paidDate : Option Nat
  month : Option String
  notes : Option String
  createdAt : Nat
  updatedAt : Nat
deriving DecidableEq, Repr

/-- RentalAgreement record (fields relevant to the claims). -/
structure RentalAgreement where
  id : String
  propertyId : String
  landlordId : String
  renterId : String
  status : AgreementStatus
deriving DecidableEq, Repr

/-- The five DynamoDB tables; user profiles carry no claim-relevant field
beyond their key, so the users table is a list of ids. -/
structure Store where
  users : List String
  properties : List Property
  applications : List Application
  payments : List Payment
  agreements : List RentalAgreement
deriving DecidableEq, Repr

/-! ## Dashboard aggregation (src/backend/src/routes/users.ts, GET /users/landlord/dashboard) -/

/-- `payments.filter(p => p.status === 'paid').reduce((sum, p) => sum + p.amount, 0)`. -/
def totalEarnings (payments : List Payment) : Int :=
  (payments.filter (fun p => decide (p.status = PaymentStatus.paid))).foldl
    (fun sum p => sum + p.amount) 0

/-- `payments.filter(p => p.status === 'paid' && p.month === currentMonth).reduce(...)`. -/
def monthlyEarnings (payments : List Payment) (currentMonth : String) : Int :=
  (payments.filter (fun p =>
      decide (p.status = PaymentStatus.paid ∧ p.month = some currentMonth))).foldl
    (fun sum p => sum + p.amount) 0

/-- Comparator used by the dashboard's payment sorts:
`(a, b) => new Date(a.dueDate).getTime() - new Date(b.dueDate).getTime()`. -/
def dueLE (a b : Payment) : Prop := a.dueDate ≤ b.dueDate

instance : DecidableRel dueLE := fun a b => inferInstanceAs (Decidable (a.dueDate ≤ b.dueDate))

instance : IsTotal Payment dueLE := ⟨fun a b => Nat.le_total a.dueDate b.dueDate⟩

instance : IsTrans Payment dueLE := ⟨fun _ _ _ => Nat.le_trans⟩

/-- `payments.filter(p => p.status === 'pending' && new Date(p.dueDate) < new Date())
.sort((a, b) => dueDate asc)` — uncapped. -/
def overduePayments (payments : List Payment) (now : Nat) : List Payment :=
  List.insertionSort dueLE
    (payments.filter (fun p => decide (p.status = PaymentStatus.pending ∧ p.dueDate < now)))

/-- `payments.filter(p => p.status === 'pending' && new Date(p.dueDate) >= new Date())
.sort((a, b) => dueDate asc).slice(0, 10)`. -/
def upcomingPayments (payments : List Payment) (now : Nat) : List Payment :=
  (List.insertionSort dueLE
    (payments.filter (fun p => decide (p.status = PaymentStatus.pending ∧ now ≤ p.dueDate)))).take 10

/-! ## Payment routes (src/unnamed/part_000) -/

/-- The accepted-status check `['pending','paid','overdue','cancelled'].includes(status)`,
combined with decoding the raw body string into the status enum. -/
def parsePaymentStatus (s : String) : Option PaymentStatus :=
  if s = "pending" then some PaymentStatus.pending
  else if s = "paid" then some PaymentStatus.paid
  else if s = "overdue" then some PaymentStatus.overdue
  else if s = "cancelled" then some PaymentStatus.cancelled
  else none

/-- The update expression built identically in PATCH /payments/:id/status and in the
per-id body of PATCH /payments/bulk-update:
`SET status, updatedAt` always; `paidDate` only when `status === 'paid' && paidDate`;
`notes` only when `notes` is supplied. -/
def modifyPayment (p : Payment) (st : PaymentStatus) (paidDate : Option Nat)
    (notes : Option String) (now : Nat) : Payment :=
  { p with
    status := st
    updatedAt := now
    paidDate := if st = PaymentStatus.paid ∧ paidDate.isSome then paidDate else p.paidDate
    notes := if notes.isSome then notes else p.notes }

/-- `dynamoDB.update` on the payments table at key `pid` with the expression above. -/
def applyPaymentUpdate (payments : List Payment) (pid : String) (st : PaymentStatus)
    (paidDate : Option Nat) (notes : Option String) (now : Nat) : List Payment :=
  payments.map (fun q => if q.id = pid then modifyPayment q st paidDate notes now else q)

/-- PATCH /payments/:id/status handler (landlord only).  Validates id/status,
fetches the payment, checks ownership, then updates unconditionally — there is
no check of the payment's current status anywhere in the handler. -/
def updatePaymentStatus (s : Store) (caller pid rawStatus : String)
    (paidDate : Option Nat) (notes : Option String) (now : Nat) :
    (Except (Nat × String) Payment) × Store :=
  if pid = "" ∨ rawStatus = "" then
    (Except.error (400, "Payment ID and status are required"), s)
  else
    match parsePaymentStatus rawStatus with
    | none => (Except.error (400, "Invalid status"), s)
    | some st =>
      match s.payments.find? (fun q => decide (q.id = pid)) with
      | none => (Except.error (404, "Payment not found"), s)
      | some p =>
        if p.landlordId ≠ caller then
          (Except.error (403, "Unauthorized to update this payment"), s)
        else
          (Except.ok (modifyPayment p st paidDate notes now),
           { s with payments := applyPaymentUpdate s.payments pid st paidDate notes now })

/-- One entry of the bulk-update response list. -/
structure BulkResult where
  id : String
  success : Bool
  error : Option String
deriving DecidableEq, Repr

/-- The per-id loop of PATCH /payments/bulk-update: each id is fetched and
ownership-checked against the current table state, updated on success, and a
result entry is pushed in every branch. -/
def bulkGo (caller : String) (st : PaymentStatus) (paidDate : Option Nat)
    (notes : Option String) (now : Nat) :
    List Payment → List String → List Payment × List BulkResult
  | payments, [] => (payments, [])
  | payments, pid :: rest =>
    match payments.find? (fun q => decide (q.id = pid)) with
    | none =>
      let r := bulkGo caller st paidDate notes now payments rest
      (r.1, ⟨pid, false, some "Payment not found"⟩ :: r.2)
    | some p =>
      if p.landlordId = caller then
        let r := bulkGo caller st paidDate notes now
          (applyPaymentUpdate payments pid st paidDate notes now) rest
        (r.1, ⟨pid, true, none⟩ :: r.2)
      else
        let r := bulkGo caller st paidDate notes now payments rest
        (r.1, ⟨pid, false, some "Unauthorized"⟩ :: r.2)

/-- PATCH /payments/bulk-update handler (landlord only).  After the two body
validations it always answers 200 with one result entry per submitted id. -/
def bulkUpdatePayments (s : Store) (caller : String) (paymentIds : List String)
    (rawStatus : String) (paidDate : Option Nat) (notes : Option String) (now : Nat) :
    (Except (Nat × String) (List BulkResult)) × Store :=
  if paymentIds.isEmpty then
    (Except.error (400, "Payment IDs array is required"), s)
  else
    match parsePaymentStatus rawStatus with
    | none => (Except.error (400, "Valid status is required"), s)
    | some st =>
      let r := bulkGo caller st paidDate notes now s.payments paymentIds
      (Except.ok r.2, { s with payments := r.1 })

/-- Body of POST /payments.  The body may carry a `status` field; the handler
never reads it (the Payment literal hard-codes `status: 'pending'`). -/
structure CreatePaymentRequest where
  rentalAgreementId : String
  amount : Option Int
  type : String
  dueDate : Option Nat
  month : Option String
  notes : Option String
  status : Option String
deriving DecidableEq, Repr

/-- POST /payments handler (landlord only).  `!paymentData.amount` is falsy for
an absent amount and for 0, modelled as `amount.getD 0 = 0`. -/
def createPayment (s : Store) (caller : String) (r : CreatePaymentRequest)
    (newId : String) (now : Nat) : (Except (Nat × String) Payment) × Store :=
  if r.rentalAgreementId = "" ∨ r.amount.getD 0 = 0 ∨ r.type = "" ∨ r.dueDate.isNone then
    (Except.error (400, "Missing required fields"), s)
  else
    match s.agreements.find? (fun a => decide (a.id = r.rentalAgreementId)) with
    | none => (Except.error (404, "Rental agreement not found"), s)
    | some ag =>
      if ag.landlordId ≠ caller then
        (Except.error (403, "Unauthorized to create payment for this rental agreement"), s)
      else
        let payment : Payment :=
          { id := newId
            rentalAgreementId := r.rentalAgreementId
            propertyId := ag.propertyId
            renterId := ag.renterId
            landlordId := caller
            amount := r.amount.getD 0
            type := r.type
            status := PaymentStatus.pending
            dueDate := r.dueDate.getD 0
            paidDate := none
            month := r.month
            notes := r.notes
            createdAt := now
            updatedAt := now }
        (Except.ok payment, { s with payments := s.payments ++ [payment] })

/-! ## Application routes (src/unnamed/part_001) -/

/-- The accepted-status check `['pending','approved','rejected','withdrawn'].includes(status)`
of PATCH /applications/:id/status, combined with decoding into the enum. -/
def parseApplicationStatus (s : String) : Option ApplicationStatus :=
  if s = "pending" then some ApplicationStatus.pending
  else if s = "approved" then some ApplicationStatus.approved
  else if s = "rejected" then some ApplicationStatus.rejected
  else if s = "withdrawn" then some ApplicationStatus.withdrawn
  else none

/-- Body of POST /applications.  `personalInfo`/`employment` are raw JSON
strings in the source; the body may carry a `status` field which the handler
never reads (the Application literal hard-codes `status: 'pending'`). -/
structure SubmitApplicationRequest where
  propertyId : String
  personalInfo : Option String
  employment : Option String
  references : Option String
  message : Option String
  status : Option String
deriving DecidableEq, Repr

/-- POST /applications handler (renter only): required-field check, property
existence and availability checks, then the duplicate pre-check scan with
`FilterExpression: 'propertyId = :propertyId AND renterId = :renterId'` —
note the scan does not constrain the existing application's status. -/
def submitApplication (s : Store) (caller : String) (r : SubmitApplicationRequest)
    (newId : String) (now : Nat) : (Except (Nat × String) Application) × Store :=
  if r.propertyId = "" ∨ r.personalInfo.isNone ∨ r.employment.isNone then
    (Except.error (400, "Missing required fields"), s)
  else
    match s.properties.find? (fun q => decide (q.id = r.propertyId)) with
    | none => (Except.error (404, "Property not found"), s)
    | some prop =>
      if prop.status ≠ PropertyStatus.available then
        (Except.error (400, "Property is not available for applications"), s)
      else if (s.applications.filter
          (fun a => decide (a.propertyId = r.propertyId ∧ a.renterId = caller))).length ≠ 0 then
        (Except.error (409, "You have already applied to this property"), s)
      else
        let app : Application :=
          { id := newId
            propertyId := r.propertyId
            renterId := caller
            landlordId := prop.landlordId
            status := ApplicationStatus.pending
            personalInfo := r.personalInfo.getD ""
            employment := r.employment.getD ""
            message := r.message
            createdAt := now
            updatedAt := now
            reviewedAt := none
            reviewedBy := none
            notes := none }
        (Except.ok app, { s with applications := s.applications ++ [app] })

/-- PATCH /applications/:id/status handler (landlord only).  Accepts any of
the four status values, with no check of the application's current status;
when the new status is `approved` it additionally updates the linked
property's status to `rented`. -/
def updateApplicationStatus (s : Store) (caller appId rawStatus : String)
    (notes : Option String) (now : Nat) : (Except (Nat × String) Application) × Store :=
  if appId = "" ∨ rawStatus = "" then
    (Except.error (400, "Application ID and status are required"), s)
  else
    match parseApplicationStatus rawStatus with
    | none => (Except.error (400, "Invalid status"), s)
    | some st =>
      match s.applications.find? (fun a => decide (a.id = appId)) with
      | none => (Except.error (404, "Application not found"), s)
      | some app =>
        if app.landlordId ≠ caller then
          (Except.error (403, "Unauthorized to update this application"), s)
        else
          let app' := { app with
            status := st
            updatedAt := now
            reviewedAt := some now
            reviewedBy := some caller
            notes := if notes.isSome then notes else app.notes }
          let apps' := s.applications.map (fun a => if a.id = appId then app' else a)
          let props' :=
            if st = ApplicationStatus.approved then
              s.properties.map (fun q =>
                if q.id = app.propertyId then
                  { q with status := PropertyStatus.rented, updatedAt := now }
                else q)
            else s.properties
          (Except.ok app', { s with applications := apps', properties := props' })

/-- PATCH /applications/:id/withdraw handler (renter only): existence,
ownership (renterId) and current-status-`pending` checks, then the update to
`withdrawn`.  The handler touches only the applications table. -/
def withdrawApplication (s : Store) (caller appId : String) (now : Nat) :
    (Except (Nat × String) Application) × Store :=
  if appId = "" then
    (Except.error (400, "Application ID is required"), s)
  else
    match s.applications.find? (fun a => decide (a.id = appId)) with
    | none => (Except.error (404, "Application not found"), s)
    | some app =>
      if app.renterId ≠ caller then
        (Except.error (403, "Unauthorized to withdraw this application"), s)
      else if app.status ≠ ApplicationStatus.pending then
        (Except.error (400, "Cannot withdraw application that is not pending"), s)
      else
        let app' := { app with status := ApplicationStatus.withdrawn, updatedAt := now }
        (Except.ok app',
         { s with applications := s.applications.map (fun a => if a.id = appId then app' else a) })

/-! ## Property creation (src/backend/src/routes/properties.ts, POST /properties) -/

/-- Body of POST /properties.  `price`/`address` are raw JSON strings in the
source; the body may carry a `status` field which the handler never reads
(the Property literal hard-codes `status: 'available'`). -/
structure CreatePropertyRequest where
  title : String
  description : String
  price : Option String
  address : Option String
  status : Option String
deriving DecidableEq, Repr

/-- POST /properties handler (landlord only). -/
def createProperty (s : Store) (caller : String) (r : CreatePropertyRequest)
    (newId : String) (now : Nat) : (Except (Nat × String) Property) × Store :=
  if r.title = "" ∨ r.description = "" ∨ r.price.isNone ∨ r.address.isNone then
    (Except.error (400, "Missing required fields"), s)
  else
    let prop : Property :=
      { id := newId
        landlordId := caller
        title := r.title
        description := r.description
        status := PropertyStatus.available
        createdAt := now
        updatedAt := now }
    (Except.ok prop, { s with properties := s.properties ++ [prop] })

/-! ## Account deletion (src/backend/src/routes/users.ts, DELETE /users/account) -/

/-- The body of the try block of the DELETE /users/account handler: the
rented-property scan for landlords / active-agreement scan for renters, the
400 error when the scan is non-empty, and otherwise the user-record delete. -/
def deleteAccountInner (s : Store) (caller : String) (role : Role) :
    (Except (Nat × String) String) × Store :=
  match role with
  | Role.landlord =>
    if (s.properties.filter
        (fun q => decide (q.landlordId = caller ∧ q.status = PropertyStatus.rented))).length ≠ 0 then
      (Except.error (400, "Cannot delete account with active rentals"), s)
    else
      (Except.ok "Account deleted successfully",
       { s with users := s.users.filter (fun u => decide (u ≠ caller)) })
  | Role.renter =>
    if (s.agreements.filter
        (fun a => decide (a.renterId = caller ∧ a.status = AgreementStatus.active))).length ≠ 0 then
      (Except.error (400, "Cannot delete account with active rentals"), s)
    else
      (Except.ok "Account deleted successfully",
       { s with users := s.users.filter (fun u => decide (u ≠ caller)) })

/-- DELETE /users/account handler: the whole body above sits inside
`try { ... } catch (error) { throw createError('Failed to delete account', 500) }`,
so every error it raises — including its own 400 — reaches the caller as a
fresh 500. -/
def deleteAccount (s : Store) (caller : String) (role : Role) :
    (Except (Nat × String) String) × Store :=
  match deleteAccountInner s caller role with
  | (Except.ok m, s1) => (Except.ok m, s1)
  | (Except.error _, s1) => (Except.error (500, "Failed to delete account"), s1)

/-! ## Helper lemmas and sample records -/

/-- A fixed payment record used to build concrete instances. -/
def samplePayment : Payment :=
  { id := "p1"
    rentalAgreementId := "ra1"
    propertyId := "pr1"
    renterId := "r1"
    landlordId := "l1"
    amount := 100
    type := "rent"
    status := PaymentStatus.pending
    dueDate := 10
    paidDate := none
    month := none
    notes := none
    createdAt := 0
    updatedAt := 0 }

lemma foldl_add_amount (l : List Payment) (a : Int) :
    l.foldl (fun sum p => sum + p.amount) a = a + (l.map Payment.amount).sum := by
  induction l generalizing a with
  | nil => simp
  | cons q m ih => simp [ih, add_assoc]

lemma totalEarnings_eq_sum (l : List Payment) :
    totalEarnings l =
      ((l.filter (fun q => decide (q.status = PaymentStatus.paid))).map Payment.amount).sum := by
  simp [totalEarnings, foldl_add_amount]

/-! ## Claim C1 — landlord dashboard total earnings -/

/-- Claim C1 (counterexample): the claim demands a strict decrease of
`totalEarnings` whenever one payment's status leaves `paid` and its amount is
nonzero, but `amount` comes from `Number(paymentData.amount)` with no sign
validation: for a stored payment of amount -1, flipping its status from
`paid` to `cancelled` moves the total from -1 up to 0 — no decrease. -/
theorem c1_counterexample :
    ({ samplePayment with status := PaymentStatus.paid, amount := -1 } : Payment).amount ≠ 0 ∧
    totalEarnings [{ samplePayment with status := PaymentStatus.paid, amount := -1 }] = -1 ∧
    totalEarnings [{ samplePayment with status := PaymentStatus.cancelled, amount := -1 }] = 0 ∧
    ¬ totalEarnings [{ samplePayment with status := PaymentStatus.cancelled, amount := -1 }] <
        totalEarnings [{ samplePayment with status := PaymentStatus.paid, amount := -1 }] := by
  decide

/-- Claim C1 (amended): the dashboard's total-earnings figure equals the sum
of `amount` over exactly the payments with status `paid`, and changing one
payment's status from `paid` to anything else changes the total by exactly
minus that payment's amount — a strict decrease when the amount is positive,
no change when it is zero (for a negative amount, which the API does not
rule out, the total increases). -/
theorem c1_total_earnings (l1 l2 : List Payment) (p : Payment) (st : PaymentStatus)
    (hp : p.status = PaymentStatus.paid) (hst : st ≠ PaymentStatus.paid) :
    totalEarnings (l1 ++ p :: l2) =
      (((l1 ++ p :: l2).filter
        (fun q => decide (q.status = PaymentStatus.paid))).map Payment.amount).sum ∧
    totalEarnings (l1 ++ { p with status := st } :: l2) =
      totalEarnings (l1 ++ p :: l2) - p.amount ∧
    (0 < p.amount →
      totalEarnings (l1 ++ { p with status := st } :: l2) <
        totalEarnings (l1 ++ p :: l2)) ∧
    (p.amount = 0 →
      totalEarnings (l1 ++ { p with status := st } :: l2) =
        totalEarnings (l1 ++ p :: l2)) := by
  have key : totalEarnings (l1 ++ { p with status := st } :: l2) =
      totalEarnings (l1 ++ p :: l2) - p.amount := by
    simp [totalEarnings_eq_sum, List.filter_append, List.filter_cons, hp, hst]
    ring
  refine ⟨totalEarnings_eq_sum _, key, ?_, ?_⟩
  · intro h
    rw [key]
    omega
  · intro h
    rw [key, h]
    simp

/-- Concrete paid payment for the C1 witness. -/
def c1p : Payment := { samplePayment with status := PaymentStatus.paid }

/-- Claim C1 witness: the amended theorem applied at one concrete payment. -/
theorem c1_total_earnings_witness :
    c1p.status = PaymentStatus.paid ∧ PaymentStatus.cancelled ≠ PaymentStatus.paid ∧
    totalEarnings ([] ++ { c1p with status := PaymentStatus.cancelled } :: []) =
      totalEarnings ([] ++ c1p :: []) - c1p.amount :=
  ⟨rfl, by decide, (c1_total_earnings [] [] c1p PaymentStatus.cancelled rfl (by decide)).2.1⟩

/-! ## Claim C2 — dashboard overdue/upcoming partition -/

lemma mem_overduePayments (ps : List Payment) (now : Nat) (q : Payment) :
    q ∈ overduePayments ps now ↔
      q ∈ ps ∧ q.status = PaymentStatus.pending ∧ q.dueDate < now := by
  simp [overduePayments, List.mem_filter]

lemma mem_upcomingPayments_of (ps : List Payment) (now : Nat) (q : Payment)
    (h : q ∈ upcomingPayments ps now) :
    q ∈ ps ∧ q.status = PaymentStatus.pending ∧ now ≤ q.dueDate := by
  have h2 := List.take_subset 10 _ h
  simpa [List.mem_filter] using h2

/-- Claim C2: for any collection of payments, `overduePayments` is exactly
the pending payments due strictly before now, sorted ascending by dueDate and
uncapped; `upcomingPayments` holds only pending payments due at or after now,
sorted ascending by dueDate, capped at 10 (and is exactly that set whenever
at most 10 payments qualify); and for any pending payment `p` that appears in
`upcomingPayments` at time `now1`, once `now2` passes its dueDate the very
same record (no stored field changed) appears in `overduePayments` and in
neither list it was in before. -/
theorem c2_dashboard_payment_partition (ps : List Payment) (p : Payment)
    (now1 now2 : Nat) (hup : p ∈ upcomingPayments ps now1)
    (hpass : p.dueDate < now2) :
    (∀ now q, q ∈ overduePayments ps now ↔
        q ∈ ps ∧ q.status = PaymentStatus.pending ∧ q.dueDate < now) ∧
    (∀ now, List.Sorted dueLE (overduePayments ps now)) ∧
    (∀ now q, q ∈ upcomingPayments ps now →
        q ∈ ps ∧ q.status = PaymentStatus.pending ∧ now ≤ q.dueDate) ∧
    (∀ now, List.Sorted dueLE (upcomingPayments ps now)) ∧
    (∀ now, (upcomingPayments ps now).length ≤ 10) ∧
    (∀ now, (ps.filter
        (fun q => decide (q.status = PaymentStatus.pending ∧ now ≤ q.dueDate))).length ≤ 10 →
      ∀ q, q ∈ upcomingPayments ps now ↔
        q ∈ ps ∧ q.status = PaymentStatus.pending ∧ now ≤ q.dueDate) ∧
    p ∈ overduePayments ps now2 ∧
    p ∉ upcomingPayments ps now2 ∧
    p ∉ overduePayments ps now1 := by
  obtain ⟨hmem, hpend, hdue1⟩ := mem_upcomingPayments_of ps now1 p hup
  refine ⟨fun now q => mem_overduePayments ps now q,
    fun now => List.sorted_insertionSort dueLE _,
    fun now q h => mem_upcomingPayments_of ps now q h,
    fun now => ?_, fun now => ?_, fun now hlen q => ?_, ?_, ?_, ?_⟩
  · exact (List.sorted_insertionSort dueLE _).sublist (List.take_sublist 10 _)
  · exact List.length_take_le 10 _
  · have hlen2 : (List.insertionSort dueLE (ps.filter
        (fun q => decide (q.status = PaymentStatus.pending ∧ now ≤ q.dueDate)))).length ≤ 10 := by
      rwa [(List.perm_insertionSort dueLE _).length_eq]
    rw [upcomingPayments, List.take_of_length_le hlen2]
    simp [List.mem_filter]
  · exact (mem_overduePayments ps now2 p).2 ⟨hmem, hpend, hpass⟩
  · intro h
    exact absurd (mem_upcomingPayments_of ps now2 p h).2.2 (by omega)
  · intro h
    exact absurd ((mem_overduePayments ps now1 p).1 h).2.2 (by omega)

/-- Claim C2 witness: the theorem applied to one pending payment due at 10,
with now advancing from 5 to 100. -/
theorem c2_dashboard_payment_partition_witness :
    samplePayment ∈ upcomingPayments [samplePayment] 5 ∧
    samplePayment.dueDate < 100 ∧
    samplePayment ∈ overduePayments [samplePayment] 100 ∧
    samplePayment ∉ upcomingPayments [samplePayment] 100 :=
  ⟨by decide, by decide,
    (c2_dashboard_payment_partition [samplePayment] samplePayment 5 100
      (by decide) (by decide)).2.2.2.2.2.2.1,
    (c2_dashboard_payment_partition [samplePayment] samplePayment 5 100
      (by decide) (by decide)).2.2.2.2.2.2.2.1⟩

/-! ## Claim C3 — duplicate application pre-check -/

/-- Available property for the C3 scenario. -/
def c3prop : Property :=
  { id := "pr1", landlordId := "l1", title := "t", description := "d",
    status := PropertyStatus.available, createdAt := 0, updatedAt := 0 }

/-- An application for (pr1, r1) that has already been withdrawn. -/
def c3withdrawnApp : Application :=
  { id := "a1", propertyId := "pr1", renterId := "r1", landlordId := "l1",
    status := ApplicationStatus.withdrawn, personalInfo := "pi", employment := "em",
    message := none, createdAt := 0, updatedAt := 0,
    reviewedAt := none, reviewedBy := none, notes := none }

/-- Store in which renter r1 has a withdrawn application for property pr1. -/
def c3store : Store :=
  { users := ["l1", "r1"], properties := [c3prop],
    applications := [c3withdrawnApp], payments := [], agreements := [] }

/-- Resubmission body for the same property. -/
def c3req : SubmitApplicationRequest :=
  { propertyId := "pr1", personalInfo := some "pi2", employment := some "em2",
    references := none, message := none, status := none }

/-- Claim C3 (counterexample): the duplicate pre-check scan filters only on
`propertyId` and `renterId`, never on status, so a resubmission after the
earlier application was withdrawn still fails with 409 — the claim's
"after the earlier application is withdrawn, a resubmission succeeds" is
false on the code. -/
theorem c3_counterexample :
    c3withdrawnApp.status = ApplicationStatus.withdrawn ∧
    submitApplication c3store "r1" c3req "a2" 50 =
      (Except.error (409, "You have already applied to this property"), c3store) :=
  ⟨rfl, rfl⟩

/-- Claim C3 (amended): while any application for the (propertyId, renterId)
pair exists — regardless of its status, withdrawn and rejected included — a
second submission yields Conflict (409) and stores nothing; a submission
succeeds (storing a new pending application) only when no application at all
exists for the pair. -/
theorem c3_duplicate_application (s : Store) (caller : String)
    (r : SubmitApplicationRequest) (newId : String) (now : Nat) (prop : Property)
    (hval : ¬(r.propertyId = "" ∨ r.personalInfo.isNone ∨ r.employment.isNone))
    (hfind : s.properties.find? (fun q => decide (q.id = r.propertyId)) = some prop)
    (havail : prop.status = PropertyStatus.available) :
    ((∃ a ∈ s.applications, a.propertyId = r.propertyId ∧ a.renterId = caller) →
      submitApplication s caller r newId now =
        (Except.error (409, "You have already applied to this property"), s)) ∧
    ((∀ a ∈ s.applications, ¬(a.propertyId = r.propertyId ∧ a.renterId = caller)) →
      ∃ app, submitApplication s caller r newId now =
          (Except.ok app, { s with applications := s.applications ++ [app] }) ∧
        app.status = ApplicationStatus.pending ∧
        app.propertyId = r.propertyId ∧ app.renterId = caller) := by
  constructor
  · rintro ⟨a, ha, hpair⟩
    have hmem : a ∈ s.applications.filter
        (fun a => decide (a.propertyId = r.propertyId ∧ a.renterId = caller)) :=
      List.mem_filter.2 ⟨ha, by simpa using hpair⟩
    have hlen : (s.applications.filter
        (fun a => decide (a.propertyId = r.propertyId ∧ a.renterId = caller))).length ≠ 0 := by
      intro h0
      rw [List.length_eq_zero] at h0
      rw [h0] at hmem
      simp at hmem
    unfold submitApplication
    rw [if_neg hval, hfind]
    simp only [havail]
    simp [hlen]
    exact ⟨a, ha, hpair⟩
  · intro hnone
    have hfil : s.applications.filter
        (fun a => decide (a.propertyId = r.propertyId ∧ a.renterId = caller)) = [] := by
      rw [List.filter_eq_nil_iff]
      intro a ha
      simpa using hnone a ha
    refine ⟨{ id := newId, propertyId := r.propertyId, renterId := caller,
              landlordId := prop.landlordId, status := ApplicationStatus.pending,
              personalInfo := r.personalInfo.getD "", employment := r.employment.getD "",
              message := r.message, createdAt := now, updatedAt := now,
              reviewedAt := none, reviewedBy := none, notes := none }, ?_, rfl, rfl, rfl⟩
    unfold submitApplication
    rw [if_neg hval, hfind]
    simp [havail, hfil]
    exact fun x hx h1 h2 => hnone x hx ⟨h1, h2⟩

/-- Claim C3 witness: the amended theorem applied at the concrete store
(409 direction, against the withdrawn application). -/
theorem c3_duplicate_application_witness :
    (∃ a ∈ c3store.applications,
        a.propertyId = c3req.propertyId ∧ a.renterId = "r1") ∧
    submitApplication c3store "r1" c3req "a9" 60 =
      (Except.error (409, "You have already applied to this property"), c3store) :=
  ⟨⟨c3withdrawnApp, by decide, by decide⟩,
    (c3_duplicate_application c3store "r1" c3req "a9" 60 c3prop (by decide) (by decide)
      (by decide)).1 ⟨c3withdrawnApp, by decide, by decide⟩⟩

/-! ## Claim C4 — approval side effect on the property -/

/-- Claim C4: whenever the landlord status update runs its success path
(application found, caller owns it, status value valid), setting the status
to `approved` rewrites the properties table so that the linked property's
status is `rented` (and only that property is touched), setting it to
`rejected` leaves the properties table exactly as it was, and the withdraw
handler never touches the properties table at all. -/
theorem c4_approval_side_effect (s : Store) (caller appId rawStatus : String)
    (notes : Option String) (now : Nat) (st : ApplicationStatus) (app : Application)
    (hval : ¬(appId = "" ∨ rawStatus = ""))
    (hparse : parseApplicationStatus rawStatus = some st)
    (hfind : s.applications.find? (fun a => decide (a.id = appId)) = some app)
    (hown : app.landlordId = caller) :
    (st = ApplicationStatus.approved →
      (updateApplicationStatus s caller appId rawStatus notes now).2.properties =
        s.properties.map (fun q =>
          if q.id = app.propertyId then
            { q with status := PropertyStatus.rented, updatedAt := now }
          else q) ∧
      ∀ q' ∈ (updateApplicationStatus s caller appId rawStatus notes now).2.properties,
        q'.id = app.propertyId → q'.status = PropertyStatus.rented) ∧
    (st = ApplicationStatus.rejected →
      (updateApplicationStatus s caller appId rawStatus notes now).2.properties =
        s.properties) ∧
    (∀ s2 caller2 id2 now2,
      (withdrawApplication s2 caller2 id2 now2).2.properties = s2.properties) := by
  refine ⟨?_, ?_, ?_⟩
  · intro hst
    subst hst
    have hprops : (updateApplicationStatus s caller appId rawStatus notes now).2.properties =
        s.properties.map (fun q =>
          if q.id = app.propertyId then
            { q with status := PropertyStatus.rented, updatedAt := now }
          else q) := by
      unfold updateApplicationStatus
      rw [if_neg hval, hparse, hfind]
      simp [hown]
    refine ⟨hprops, ?_⟩
    intro q' hq' hid
    rw [hprops] at hq'
    obtain ⟨q, hq, hfq⟩ := List.mem_map.1 hq'
    by_cases hcase : q.id = app.propertyId
    · rw [if_pos hcase] at hfq
      rw [← hfq]
    · rw [if_neg hcase] at hfq
      rw [← hfq] at hid
      exact absurd hid hcase
  · intro hst
    subst hst
    unfold updateApplicationStatus
    rw [if_neg hval, hparse, hfind]
    simp [hown]
  · intro s2 caller2 id2 now2
    unfold withdrawApplication
    by_cases h0 : id2 = ""
    · simp [h0]
    · rw [if_neg h0]
      cases hf : s2.applications.find? (fun a => decide (a.id = id2)) with
      | none => simp
      | some a2 =>
        by_cases hr : a2.renterId ≠ caller2
        · simp [hr]
        · by_cases hs : a2.status ≠ ApplicationStatus.pending
          · simp [hr, hs]
          · simp [hr, hs]

/-- Pending application owned by landlord l1 for property pr1, used in the
C4 and C9 scenarios. -/
def c4app : Application :=
  { c3withdrawnApp with id := "a4", status := ApplicationStatus.pending }

/-- Store for the C4 witness. -/
def c4store : Store :=
  { users := ["l1", "r1"], properties := [c3prop], applications := [c4app],
    payments := [], agreements := [] }

/-- Claim C4 witness: approving the concrete pending application rewrites
the properties table, flipping property pr1 to `rented`. -/
theorem c4_approval_side_effect_witness :
    (updateApplicationStatus c4store "l1" "a4" "approved" none 7).2.properties =
      c4store.properties.map (fun q =>
        if q.id = c4app.propertyId then
          { q with status := PropertyStatus.rented, updatedAt := 7 }
        else q) :=
  ((c4_approval_side_effect c4store "l1" "a4" "approved" none 7
      ApplicationStatus.approved c4app (by decide) rfl (by decide) rfl).1 rfl).1

/-! ## Claims C5/C6 — payment status machine -/

/-- Success path of PATCH /payments/:id/status: with a valid status value, an
existing payment and an owning caller, the handler answers 200 with the
modified record and writes it back — with no condition on the payment's
current status. -/
lemma updatePaymentStatus_ok (s : Store) (caller pid rawStatus : String)
    (paidDate : Option Nat) (notes : Option String) (now : Nat)
    (st : PaymentStatus) (p : Payment)
    (hpid : pid ≠ "")
    (hparse : parsePaymentStatus rawStatus = some st)
    (hfind : s.payments.find? (fun q => decide (q.id = pid)) = some p)
    (hown : p.landlordId = caller) :
    updatePaymentStatus s caller pid rawStatus paidDate notes now =
      (Except.ok (modifyPayment p st paidDate notes now),
       { s with payments := applyPaymentUpdate s.payments pid st paidDate notes now }) := by
  have hraw : rawStatus ≠ "" := by
    intro h
    rw [h] at hparse
    cases st <;> exact absurd hparse (by decide)
  unfold updatePaymentStatus
  rw [if_neg (by simp [hpid, hraw]), hparse, hfind]
  simp [hown]

/-- A payment already in the `paid` state, owned by landlord l1. -/
def c5payment : Payment := { samplePayment with id := "p5", status := PaymentStatus.paid }

/-- Store for the C5 scenario. -/
def c5store : Store :=
  { users := ["l1"], properties := [], applications := [],
    payments := [c5payment], agreements := [] }

/-- Claim C5 (counterexample): the status-update handler never inspects the
payment's current status, so a payment stored as `paid` can be updated to
`cancelled`: the request succeeds and the stored record changes — refuting
"an update request against a payment not in `pending` fails without changing
the record". -/
theorem c5_counterexample :
    c5payment.status = PaymentStatus.paid ∧
    updatePaymentStatus c5store "l1" "p5" "cancelled" none none 9 =
      (Except.ok { c5payment with status := PaymentStatus.cancelled, updatedAt := 9 },
       { c5store with
          payments := [{ c5payment with status := PaymentStatus.cancelled, updatedAt := 9 }] }) ∧
    (updatePaymentStatus c5store "l1" "p5" "cancelled" none none 9).2 ≠ c5store :=
  ⟨rfl, rfl, by decide⟩

/-- Claim C5 (amended): the payment status-update operation checks only
existence and ownership, never the current status: for every stored payment
owned by the caller and every valid target status, the update succeeds and
stores the target status — transitions out of `paid`, `overdue` and
`cancelled` (and back to `pending`) are all accepted. -/
theorem c5_payment_status_transitions (s : Store) (caller pid rawStatus : String)
    (paidDate : Option Nat) (notes : Option String) (now : Nat)
    (st : PaymentStatus) (p : Payment)
    (hpid : pid ≠ "")
    (hparse : parsePaymentStatus rawStatus = some st)
    (hfind : s.payments.find? (fun q => decide (q.id = pid)) = some p)
    (hown : p.landlordId = caller) :
    updatePaymentStatus s caller pid rawStatus paidDate notes now =
      (Except.ok (modifyPayment p st paidDate notes now),
       { s with payments := applyPaymentUpdate s.payments pid st paidDate notes now }) ∧
    (modifyPayment p st paidDate notes now).status = st :=
  ⟨updatePaymentStatus_ok s caller pid rawStatus paidDate notes now st p
      hpid hparse hfind hown, rfl⟩

/-- Claim C5 witness: a `paid` payment updated to `overdue` succeeds. -/
theorem c5_payment_status_transitions_witness :
    ("p5" : String) ≠ "" ∧
    parsePaymentStatus "overdue" = some PaymentStatus.overdue ∧
    updatePaymentStatus c5store "l1" "p5" "overdue" none none 11 =
      (Except.ok (modifyPayment c5payment PaymentStatus.overdue none none 11),
       { c5store with
          payments := applyPaymentUpdate c5store.payments "p5"
            PaymentStatus.overdue none none 11 }) :=
  ⟨by decide, rfl,
    (c5_payment_status_transitions c5store "l1" "p5" "overdue" none none 11
      PaymentStatus.overdue c5payment (by decide) rfl (by decide) rfl).1⟩

/-- A pending payment with no paidDate, owned by landlord l1. -/
def c6payment : Payment := { samplePayment with id := "p6" }

/-- Store for the C6 scenario. -/
def c6store : Store :=
  { users := ["l1"], properties := [], applications := [],
    payments := [c6payment], agreements := [] }

/-- Claim C6 (counterexample): updating a payment to `paid` while omitting
`paidDate` from the request succeeds and stores status `paid` with
`paidDate` still absent — the update never forces a paidDate. -/
theorem c6_counterexample :
    (updatePaymentStatus c6store "l1" "p6" "paid" none none 9).1 =
      Except.ok { c6payment with status := PaymentStatus.paid, updatedAt := 9 } ∧
    ({ c6payment with status := PaymentStatus.paid, updatedAt := 9 } : Payment).status =
      PaymentStatus.paid ∧
    ({ c6payment with status := PaymentStatus.paid, updatedAt := 9 } : Payment).paidDate =
      none :=
  ⟨rfl, rfl, rfl⟩

/-- Claim C6 (amended): a successful status update (single and bulk both
apply `modifyPayment`) writes `paidDate` exactly when the target status is
`paid` AND the caller supplied a paidDate; updating to `paid` without a
supplied paidDate keeps the previous value (possibly absent), so a record
with status `paid` and no paidDate is producible. -/
theorem c6_paid_date_rule (s : Store) (caller pid rawStatus : String)
    (paidDate : Option Nat) (notes : Option String) (now : Nat)
    (st : PaymentStatus) (p : Payment)
    (hpid : pid ≠ "")
    (hparse : parsePaymentStatus rawStatus = some st)
    (hfind : s.payments.find? (fun q => decide (q.id = pid)) = some p)
    (hown : p.landlordId = caller) :
    (updatePaymentStatus s caller pid rawStatus paidDate notes now).1 =
      Except.ok (modifyPayment p st paidDate notes now) ∧
    (modifyPayment p st paidDate notes now).paidDate =
      (if st = PaymentStatus.paid ∧ paidDate.isSome then paidDate else p.paidDate) ∧
    (st = PaymentStatus.paid → paidDate = none →
      (modifyPayment p st paidDate notes now).status = PaymentStatus.paid ∧
      (modifyPayment p st paidDate notes now).paidDate = p.paidDate) ∧
    (∀ d, st = PaymentStatus.paid → paidDate = some d →
      (modifyPayment p st paidDate notes now).paidDate = some d) := by
  refine ⟨?_, rfl, ?_, ?_⟩
  · rw [updatePaymentStatus_ok s caller pid rawStatus paidDate notes now st p
      hpid hparse hfind hown]
  · intro hst hpd
    subst hst
    subst hpd
    exact ⟨rfl, rfl⟩
  · intro d hst hpd
    subst hst
    subst hpd
    simp [modifyPayment]

/-- Claim C6 witness: the amended theorem applied with target `paid` and a
supplied paidDate. -/
theorem c6_paid_date_rule_witness :
    ("p6" : String) ≠ "" ∧
    parsePaymentStatus "paid" = some PaymentStatus.paid ∧
    (modifyPayment c6payment PaymentStatus.paid (some 42) none 9).paidDate = some 42 :=
  ⟨by decide, rfl,
    (c6_paid_date_rule c6store "l1" "p6" "paid" (some 42) none 9
      PaymentStatus.paid c6payment (by decide) rfl (by decide) rfl).2.2.2 42 rfl rfl⟩

/-! ## Claim C7 — bulk update processes ids independently -/

/-- The per-id check of the bulk loop: the id resolves to a payment whose
landlordId is the caller. -/
def ownedB (payments : List Payment) (pid caller : String) : Bool :=
  match payments.find? (fun q => decide (q.id = pid)) with
  | none => false
  | some p => decide (p.landlordId = caller)

lemma find?_applyPaymentUpdate (ps : List Payment) (pid : String) (st : PaymentStatus)
    (pd : Option Nat) (nts : Option String) (now : Nat) (x : String) :
    (applyPaymentUpdate ps pid st pd nts now).find? (fun q => decide (q.id = x)) =
      (ps.find? (fun q => decide (q.id = x))).map
        (fun p => if p.id = pid then modifyPayment p st pd nts now else p) := by
  induction ps with
  | nil => rfl
  | cons q ps ih =>
    by_cases hq : q.id = x
    · have hq2 : (if q.id = pid then modifyPayment q st pd nts now else q).id = x := by
        by_cases hp : q.id = pid
        · rw [if_pos hp]
          exact hq
        · rw [if_neg hp]
          exact hq
      rw [applyPaymentUpdate, List.map_cons,
          List.find?_cons_of_pos _ (by simpa using hq2),
          List.find?_cons_of_pos _ (by simpa using hq)]
      simp
    · have hq2 : ¬(if q.id = pid then modifyPayment q st pd nts now else q).id = x := by
        by_cases hp : q.id = pid
        · rw [if_pos hp]
          exact hq
        · rw [if_neg hp]
          exact hq
      rw [applyPaymentUpdate, List.map_cons,
          List.find?_cons_of_neg _ (by simpa using hq2),
          List.find?_cons_of_neg _ (by simpa using hq)]
      exact ih

lemma ownedB_applyPaymentUpdate (ps : List Payment) (pid : String) (st : PaymentStatus)
    (pd : Option Nat) (nts : Option String) (now : Nat) (x c : String) :
    ownedB (applyPaymentUpdate ps pid st pd nts now) x c = ownedB ps x c := by
  unfold ownedB
  rw [find?_applyPaymentUpdate]
  cases hf : ps.find? (fun q => decide (q.id = x)) with
  | none => rfl
  | some p =>
    by_cases hp : p.id = pid <;> simp [hp, modifyPayment]

lemma bulkGo_spec (caller : String) (st : PaymentStatus) (pd : Option Nat)
    (nts : Option String) (now : Nat) (ids : List String) :
    ∀ ps : List Payment,
      List.Forall₂ (fun pid (r : BulkResult) =>
        r.id = pid ∧ r.success = ownedB ps pid caller)
        ids (bulkGo caller st pd nts now ps ids).2 := by
  induction ids with
  | nil => intro ps; exact List.Forall₂.nil
  | cons pid rest ih =>
    intro ps
    unfold bulkGo
    split
    · rename_i hf
      refine List.Forall₂.cons ⟨rfl, ?_⟩ (ih ps)
      unfold ownedB
      rw [hf]
    · rename_i p hf
      split
      · rename_i hown
        refine List.Forall₂.cons ⟨rfl, ?_⟩ ?_
        · unfold ownedB
          rw [hf]
          simp [hown]
        · exact (ih (applyPaymentUpdate ps pid st pd nts now)).imp
            (fun a b hab => ⟨hab.1, by rw [hab.2, ownedB_applyPaymentUpdate]⟩)
      · rename_i hown
        refine List.Forall₂.cons ⟨rfl, ?_⟩ (ih ps)
        unfold ownedB
        rw [hf]
        simp [hown]

/-- Claim C7: for every non-empty id list and valid target status the bulk
update answers 200 with exactly one result entry per submitted id, in order,
each entry marked success precisely when that id resolves (independently) to
a payment owned by the caller — one id's failure never aborts the rest. -/
theorem c7_bulk_update_independent (s : Store) (caller : String) (ids : List String)
    (rawStatus : String) (paidDate : Option Nat) (notes : Option String) (now : Nat)
    (st : PaymentStatus)
    (hne : ids ≠ [])
    (hparse : parsePaymentStatus rawStatus = some st) :
    ∃ rs s2,
      bulkUpdatePayments s caller ids rawStatus paidDate notes now = (Except.ok rs, s2) ∧
      rs.length = ids.length ∧
      List.Forall₂ (fun pid (r : BulkResult) =>
        r.id = pid ∧ r.success = ownedB s.payments pid caller) ids rs := by
  have hspec := bulkGo_spec caller st paidDate notes now ids s.payments
  refine ⟨(bulkGo caller st paidDate notes now s.payments ids).2,
    { s with payments := (bulkGo caller st paidDate notes now s.payments ids).1 },
    ?_, ?_, hspec⟩
  · unfold bulkUpdatePayments
    rw [if_neg (by simpa using hne), hparse]
  · exact hspec.length_eq.symm

/-- Payments A and C owned by the caller l1; payment B owned by l2. -/
def c7A : Payment := { samplePayment with id := "A" }

def c7B : Payment := { samplePayment with id := "B", landlordId := "l2" }

def c7C : Payment := { samplePayment with id := "C" }

/-- Store for the C7 witness. -/
def c7store : Store :=
  { users := ["l1", "l2"], properties := [], applications := [],
    payments := [c7A, c7B, c7C], agreements := [] }

/-- Claim C7 witness: bulk update over [A, B, C] where B belongs to another
landlord — B's check fails while A and C remain individually processed. -/
theorem c7_bulk_update_independent_witness :
    (["A", "B", "C"] : List String) ≠ [] ∧
    parsePaymentStatus "paid" = some PaymentStatus.paid ∧
    ownedB c7store.payments "A" "l1" = true ∧
    ownedB c7store.payments "B" "l1" = false ∧
    (∃ rs s2,
      bulkUpdatePayments c7store "l1" ["A", "B", "C"] "paid" (some 5) none 9 =
        (Except.ok rs, s2) ∧
      rs.length = (["A", "B", "C"] : List String).length ∧
      List.Forall₂ (fun pid (r : BulkResult) =>
        r.id = pid ∧ r.success = ownedB c7store.payments pid "l1") ["A", "B", "C"] rs) :=
  ⟨by decide, rfl, by decide, by decide,
    c7_bulk_update_independent c7store "l1" ["A", "B", "C"] "paid" (some 5) none 9
      PaymentStatus.paid (by decide) rfl⟩

/-! ## Claim C8 — account deletion guard -/

/-- Property pr1 owned by l1, currently rented. -/
def c8rentedProp : Property := { c3prop with status := PropertyStatus.rented }

/-- Landlord l1 owning one rented property. -/
def c8store : Store :=
  { users := ["l1"], properties := [c8rentedProp], applications := [],
    payments := [], agreements := [] }

/-- The same store after pr1's status changed to available. -/
def c8storeAvail : Store :=
  { c8store with properties := [{ c8rentedProp with status := PropertyStatus.available }] }

/-- Renter r1 holding an active rental agreement. -/
def c8agreement : RentalAgreement :=
  { id := "ag8", propertyId := "pr1", landlordId := "l1", renterId := "r1",
    status := AgreementStatus.active }

/-- Store for the renter half of the C8 scenario. -/
def c8renterStore : Store :=
  { users := ["r1"], properties := [], applications := [],
    payments := [], agreements := [c8agreement] }

/-- Claim C8: deleting a landlord account with a rented property deletes
nothing (the store is returned unchanged) and deleting after the property
becomes available succeeds and removes the user record; a renter with an
active agreement likewise cannot be deleted.  However, the guard error the
handler creates as a 400 is swallowed by its own catch-all and re-thrown,
so the caller observes 500 "Failed to delete account", not a 400-class
error: the blocked deletions below surface as 500 while the inner handler
body shows the intended 400. -/
theorem c8_delete_account_behavior :
    deleteAccount c8store "l1" Role.landlord =
      (Except.error (500, "Failed to delete account"), c8store) ∧
    deleteAccountInner c8store "l1" Role.landlord =
      (Except.error (400, "Cannot delete account with active rentals"), c8store) ∧
    (deleteAccount c8storeAvail "l1" Role.landlord).1 =
      Except.ok "Account deleted successfully" ∧
    (deleteAccount c8storeAvail "l1" Role.landlord).2.users = [] ∧
    deleteAccount c8renterStore "r1" Role.renter =
      (Except.error (500, "Failed to delete account"), c8renterStore) ∧
    deleteAccountInner c8renterStore "r1" Role.renter =
      (Except.error (400, "Cannot delete account with active rentals"), c8renterStore) :=
  ⟨rfl, rfl, rfl, rfl, rfl, rfl⟩

/-! ## Claim C9 — who can set `withdrawn` -/

/-- An application of renter r1 already approved by landlord l1. -/
def c9app : Application := { c3withdrawnApp with id := "a9", status := ApplicationStatus.approved }

/-- Store for the C9 counterexample. -/
def c9store : Store :=
  { users := ["l1", "r1"], properties := [], applications := [c9app],
    payments := [], agreements := [] }

/-- Claim C9 (counterexample): `withdrawn` is among the accepted values of
the landlord status-update endpoint, which checks neither the caller being
the owning renter nor the current status being `pending`: the landlord moves
an already-approved application to `withdrawn`. -/
theorem c9_counterexample :
    c9app.status = ApplicationStatus.approved ∧
    (updateApplicationStatus c9store "l1" "a9" "withdrawn" none 9).1 =
      Except.ok { c9app with
        status := ApplicationStatus.withdrawn
        updatedAt := 9
        reviewedAt := some 9
        reviewedBy := some "l1" } :=
  ⟨rfl, rfl⟩

/-- Claim C9 (amended): on the withdraw endpoint the claimed rules do hold —
a non-owner gets 403 with nothing stored, a non-pending application gets 400
with nothing stored, and the owning renter withdraws a pending application —
but the landlord status-update endpoint can also set `withdrawn`, on any of
the landlord's applications regardless of current status. -/
theorem c9_withdraw_rules (s : Store) (caller appId : String) (now : Nat)
    (app : Application)
    (hid : appId ≠ "")
    (hfind : s.applications.find? (fun a => decide (a.id = appId)) = some app) :
    (app.renterId ≠ caller →
      withdrawApplication s caller appId now =
        (Except.error (403, "Unauthorized to withdraw this application"), s)) ∧
    (app.renterId = caller → app.status ≠ ApplicationStatus.pending →
      withdrawApplication s caller appId now =
        (Except.error (400, "Cannot withdraw application that is not pending"), s)) ∧
    (app.renterId = caller → app.status = ApplicationStatus.pending →
      (withdrawApplication s caller appId now).1 =
        Except.ok { app with status := ApplicationStatus.withdrawn, updatedAt := now }) ∧
    (∀ cL notes, app.landlordId = cL →
      (updateApplicationStatus s cL appId "withdrawn" notes now).1 =
        Except.ok { app with
          status := ApplicationStatus.withdrawn
          updatedAt := now
          reviewedAt := some now
          reviewedBy := some cL
          notes := if notes.isSome then notes else app.notes }) := by
  refine ⟨?_, ?_, ?_, ?_⟩
  · intro hren
    unfold withdrawApplication
    rw [if_neg hid, hfind]
    simp [hren]
  · intro hren hst
    unfold withdrawApplication
    rw [if_neg hid, hfind]
    simp [hren, hst]
  · intro hren hst
    unfold withdrawApplication
    rw [if_neg hid, hfind]
    simp [hren, hst]
  · intro cL notes hland
    unfold updateApplicationStatus
    rw [if_neg (not_or.mpr ⟨hid, by decide⟩),
        show parseApplicationStatus "withdrawn" = some ApplicationStatus.withdrawn from rfl,
        hfind]
    simp [hland]

/-- Claim C9 witness: the amended theorem applied at the pending application
a4 — a withdraw attempt by the non-owner r2 fails with 403. -/
theorem c9_withdraw_rules_witness :
    ("a4" : String) ≠ "" ∧
    c4store.applications.find? (fun a => decide (a.id = "a4")) = some c4app ∧
    withdrawApplication c4store "r2" "a4" 9 =
      (Except.error (403, "Unauthorized to withdraw this application"), c4store) :=
  ⟨by decide, by decide,
    (c9_withdraw_rules c4store "r2" "a4" 9 c4app (by decide) (by decide)).1 (by decide)⟩

/-! ## Claim C10 — fixed initial statuses on creation -/

/-- Claim C10: regardless of any status value the request body carries (the
request types include the field; the handlers never read it), a successfully
created Property starts `available`, a created Payment starts `pending`, and
a submitted Application starts `pending`. -/
theorem c10_initial_status (s : Store) (caller newId : String) (now : Nat)
    (rp : CreatePropertyRequest) (rpay : CreatePaymentRequest)
    (rapp : SubmitApplicationRequest) :
    (∀ prop s2, createProperty s caller rp newId now = (Except.ok prop, s2) →
      prop.status = PropertyStatus.available) ∧
    (∀ pay s2, createPayment s caller rpay newId now = (Except.ok pay, s2) →
      pay.status = PaymentStatus.pending) ∧
    (∀ app s2, submitApplication s caller rapp newId now = (Except.ok app, s2) →
      app.status = ApplicationStatus.pending) := by
  refine ⟨?_, ?_, ?_⟩
  · intro prop s2 h
    unfold createProperty at h
    split at h
    · simp at h
    · injection h with h1 h2
      injection h1 with h1
      subst h1
      rfl
  · intro pay s2 h
    unfold createPayment at h
    split at h
    · simp at h
    · split at h
      · simp at h
      · split at h
        · simp at h
        · injection h with h1 h2
          injection h1 with h1
          subst h1
          rfl
  · intro app s2 h
    unfold submitApplication at h
    split at h
    · simp at h
    · split at h
      · simp at h
      · split at h
        · simp at h
        · split at h
          · simp at h
          · injection h with h1 h2
            injection h1 with h1
            subst h1
            rfl

/-- Rental agreement for the C10 witness, owned by u1. -/
def c10agreement : RentalAgreement :=
  { id := "ag1", propertyId := "pr1", landlordId := "u1", renterId := "r1",
    status := AgreementStatus.active }

/-- Available property (owned by lX) the C10 applicant applies to. -/
def c10prop : Property := { c3prop with landlordId := "lX" }

/-- Store for the C10 witness. -/
def c10store : Store :=
  { users := ["u1"], properties := [c10prop], applications := [],
    payments := [], agreements := [c10agreement] }

/-- Property-creation body carrying a caller-supplied status (ignored). -/
def c10propReq : CreatePropertyRequest :=
  { title := "t", description := "d", price := some "p", address := some "a",
    status := some "rented" }

/-- Payment-creation body carrying a caller-supplied status (ignored). -/
def c10payReq : CreatePaymentRequest :=
  { rentalAgreementId := "ag1", amount := some 50, type := "rent",
    dueDate := some 10, month := none, notes := none, status := some "paid" }

/-- Application body carrying a caller-supplied status (ignored). -/
def c10appReq : SubmitApplicationRequest :=
  { propertyId := "pr1", personalInfo := some "pi", employment := some "em",
    references := none, message := none, status := some "approved" }

/-- The property record the handler actually persists. -/
def c10createdProp : Property :=
  { id := "x9", landlordId := "u1", title := "t", description := "d",
    status := PropertyStatus.available, createdAt := 3, updatedAt := 3 }

/-- The payment record the handler actually persists. -/
def c10createdPay : Payment :=
  { id := "x9", rentalAgreementId := "ag1", propertyId := "pr1",
    renterId := "r1", landlordId := "u1", amount := 50, type := "rent",
    status := PaymentStatus.pending, dueDate := 10, paidDate := none,
    month := none, notes := none, createdAt := 3, updatedAt := 3 }

/-- The application record the handler actually persists. -/
def c10createdApp : Application :=
  { id := "x9", propertyId := "pr1", renterId := "u1", landlordId := "lX",
    status := ApplicationStatus.pending, personalInfo := "pi", employment := "em",
    message := none, createdAt := 3, updatedAt := 3,
    reviewedAt := none, reviewedBy := none, notes := none }

/-- Claim C10 witness: the theorem applied at concrete creations whose
request bodies all carry caller-supplied statuses. -/
theorem c10_initial_status_witness :
    c10createdProp.status = PropertyStatus.available ∧
    c10createdPay.status = PaymentStatus.pending ∧
    c10createdApp.status = ApplicationStatus.pending :=
  ⟨(c10_initial_status c10store "u1" "x9" 3 c10propReq c10payReq c10appReq).1
      c10createdProp
      { c10store with properties := c10store.properties ++ [c10createdProp] }
      rfl,
   (c10_initial_status c10store "u1" "x9" 3 c10propReq c10payReq c10appReq).2.1
      c10createdPay
      { c10store with payments := [c10createdPay] }
      rfl,
   (c10_initial_status c10store "u1" "x9" 3 c10propReq c10payReq c10appReq).2.2
      c10createdApp
      { c10store with applications := [c10createdApp] }
      rfl⟩
